import Mathlib

/-!
# Verification of the talk-back RTSP initiator

A shallow embedding of `src/talkback/initiator.py` (class `TalkBackInitiator`)
together with the auxiliary string/regex operations it relies on, and proofs
about the embedded operations.

Modelling conventions:
* Python strings are Lean `String`s; scanning operations work on `String.data`
  (`List Char`).
* `hashlib.md5(...).hexdigest()` over `str.encode()` (UTF-8) is embedded as an
  executable MD5 over `List Nat` byte lists.
* Python regular-expression searches used by the initiator are embedded as
  deterministic leftmost-match scanners (each pattern used by the code is
  anchored on a literal and uses only `\s*`, `\S+`, `\d+`, `[^"]+`, `[^;\s]+`
  and `(.*)`, all of which match deterministically).  The whitespace class is
  modelled by its ASCII part, which is what RTSP traffic contains.
* The state of a `TalkBackInitiator` instance is a record `St`; the socket is
  a boolean (open/closed) plus a script of strings, one per `recv` call; the
  requests passed to `sendall` are recorded in a ghost `trace`.  Python
  exceptions are modelled by `Except Err`; a raised exception leaves the
  already-performed attribute mutations in place, so every operation returns
  `Except Err α × St`.
-/

set_option maxRecDepth 10000

/-! ## Character and list utilities (Python string operations) -/

/-- ASCII whitespace, the characters recognised by Python's `\s` and
`str.strip()` on the ASCII range. -/
def isPyWS (c : Char) : Bool :=
  c = ' ' || c = '\t' || c = '\n' || c = '\r' || c = '\x0b' || c = '\x0c'

/-- Python line-break characters relevant to `str.splitlines` (ASCII part). -/
def isLineBreak (c : Char) : Bool :=
  c = '\n' || c = '\r' || c = '\x0b' || c = '\x0c'

/-- `pat in s` (Python substring containment). -/
def containsSub (pat : List Char) : List Char → Bool
  | [] => pat.isPrefixOf ([] : List Char)
  | c :: t => pat.isPrefixOf (c :: t) || containsSub pat t

/-- Split at the first occurrence of `pat`: returns the part before and the
part after (Python `s.split(pat, 1)` when `pat` occurs). -/
def splitFirst (pat : List Char) : List Char → Option (List Char × List Char)
  | [] => if pat.isPrefixOf ([] : List Char) then some ([], []) else none
  | c :: t =>
    if pat.isPrefixOf (c :: t) then some ([], (c :: t).drop pat.length)
    else
      match splitFirst pat t with
      | some (a, b) => some (c :: a, b)
      | none => none

theorem splitFirst_shrinks (p0 : Char) (prest s a b : List Char)
    (h : splitFirst (p0 :: prest) s = some (a, b)) : b.length < s.length := by
  induction s generalizing a b with
  | nil => simp [splitFirst] at h
  | cons c t ih =>
    rw [splitFirst] at h
    split at h
    · rename_i hpre
      have hlen : (p0 :: prest).length ≤ (c :: t).length :=
        (List.isPrefixOf_iff_prefix.mp hpre).length_le
      simp only [Option.some.injEq, Prod.mk.injEq] at h
      obtain ⟨-, hb⟩ := h
      subst hb
      simp only [List.length_drop, List.length_cons] at *
      omega
    · revert h
      match hrec : splitFirst (p0 :: prest) t with
      | some (a', b') =>
        intro h
        simp only [Option.some.injEq, Prod.mk.injEq] at h
        obtain ⟨-, hb⟩ := h
        subst hb
        have := ih a' b' hrec
        simp only [List.length_cons]
        omega
      | none => intro h; simp at h

/-- Worker for `splitAll`, structurally recursive on a fuel argument so that
it evaluates inside the kernel; each split strictly shrinks the input
(`splitFirst_shrinks`), so fuel `s.length` never runs out. -/
def splitAllGo (pat : List Char) : Nat → List Char → List (List Char)
  | 0, s => [s]
  | fuel + 1, s =>
    match splitFirst pat s with
    | none => [s]
    | some (a, b) => a :: splitAllGo pat fuel b

/-- Python `s.split(pat)` for a non-empty separator `p0 :: prest`. -/
def splitAll (p0 : Char) (prest : List Char) (s : List Char) : List (List Char) :=
  splitAllGo (p0 :: prest) s.length s

/-- Python `str.strip()` on a character list. -/
def stripChars (l : List Char) : List Char :=
  ((l.dropWhile isPyWS).reverse.dropWhile isPyWS).reverse

/-- Python `s.rstrip("/")`. -/
def rstripSlash (s : String) : String :=
  String.mk ((s.data.reverse.dropWhile (· = '/')).reverse)

/-- Match a literal at the head of the input and return the rest. -/
def dropLit : List Char → List Char → Option (List Char)
  | [], s => some s
  | _ :: _, [] => none
  | l :: lt, c :: ct => if c = l then dropLit lt ct else none

/-- Value of a digit string (`int(...)` on a `\d+` capture). -/
def digitsToNat (l : List Char) : Nat :=
  l.foldl (fun n c => n * 10 + (c.toNat - 48)) 0

/-- Leftmost-match driver: try `f` at every suffix, leftmost first
(`re.search` semantics for the deterministic patterns used here). -/
def searchA {α : Type} (f : List Char → Option α) : List Char → Option α
  | [] => f []
  | c :: t =>
    match f (c :: t) with
    | some r => some r
    | none => searchA f t

/-! ## MD5 (`hashlib.md5(...).hexdigest()`) over UTF-8 bytes -/

def M32 : Nat := 4294967296

def add32 (a b : Nat) : Nat := (a + b) % M32

def not32 (x : Nat) : Nat := x ^^^ 4294967295

def rotl32 (x n : Nat) : Nat :=
  ((x <<< n) % M32) ||| (x >>> (32 - n))

def md5F (b c d : Nat) : Nat := (b &&& c) ||| (not32 b &&& d)
def md5G (b c d : Nat) : Nat := (d &&& b) ||| (not32 d &&& c)
def md5H (b c d : Nat) : Nat := b ^^^ c ^^^ d
def md5I (b c d : Nat) : Nat := c ^^^ (b ||| not32 d)

/-- The 64 MD5 sine-derived constants. -/
def md5K : List Nat :=
  [0xd76aa478, 0xe8c7b756, 0x242070db, 0xc1bdceee,
   0xf57c0faf, 0x4787c62a, 0xa8304613, 0xfd469501,
   0x698098d8, 0x8b44f7af, 0xffff5bb1, 0x895cd7be,
   0x6b901122, 0xfd987193, 0xa679438e, 0x49b40821,
   0xf61e2562, 0xc040b340, 0x265e5a51, 0xe9b6c7aa,
   0xd62f105d, 0x02441453, 0xd8a1e681, 0xe7d3fbc8,
   0x21e1cde6, 0xc33707d6, 0xf4d50d87, 0x455a14ed,
   0xa9e3e905, 0xfcefa3f8, 0x676f02d9, 0x8d2a4c8a,
   0xfffa3942, 0x8771f681, 0x6d9d6122, 0xfde5380c,
   0xa4beea44, 0x4bdecfa9, 0xf6bb4b60, 0xbebfbc70,
   0x289b7ec6, 0xeaa127fa, 0xd4ef3085, 0x04881d05,
   0xd9d4d039, 0xe6db99e5, 0x1fa27cf8, 0xc4ac5665,
   0xf4292244, 0x432aff97, 0xab9423a7, 0xfc93a039,
   0x655b59c3, 0x8f0ccc92, 0xffeff47d, 0x85845dd1,
   0x6fa87e4f, 0xfe2ce6e0, 0xa3014314, 0x4e0811a1,
   0xf7537e82, 0xbd3af235, 0x2ad7d2bb, 0xeb86d391]

/-- The 64 MD5 per-round left-rotation amounts. -/
def md5S : List Nat :=
  [7, 12, 17, 22, 7, 12, 17, 22, 7, 12, 17, 22, 7, 12, 17, 22,
   5, 9, 14, 20, 5, 9, 14, 20, 5, 9, 14, 20, 5, 9, 14, 20,
   4, 11, 16, 23, 4, 11, 16, 23, 4, 11, 16, 23, 4, 11, 16, 23,
   6, 10, 15, 21, 6, 10, 15, 21, 6, 10, 15, 21, 6, 10, 15, 21]

/-- Group 64 bytes into 16 little-endian 32-bit words. -/
def leWords : List Nat → List Nat
  | b0 :: b1 :: b2 :: b3 :: rest =>
    (b0 + 256 * b1 + 65536 * b2 + 16777216 * b3) :: leWords rest
  | _ => []

/-- `k` little-endian bytes of `n`. -/
def leBytes : Nat → Nat → List Nat
  | 0, _ => []
  | k + 1, n => (n % 256) :: leBytes k (n / 256)

def md5Round (M : List Nat) (st : Nat × Nat × Nat × Nat) (i : Nat) :
    Nat × Nat × Nat × Nat :=
  let (a, b, c, d) := st
  let fg : Nat × Nat :=
    if i < 16 then (md5F b c d, i)
    else if i < 32 then (md5G b c d, (5 * i + 1) % 16)
    else if i < 48 then (md5H b c d, (3 * i + 5) % 16)
    else (md5I b c d, (7 * i) % 16)
  let tmp := add32 (add32 a fg.1) (add32 (md5K.getD i 0) (M.getD fg.2 0))
  (d, add32 b (rotl32 tmp (md5S.getD i 0)), b, c)

def md5Chunk (st : Nat × Nat × Nat × Nat) (chunk : List Nat) :
    Nat × Nat × Nat × Nat :=
  let M := leWords chunk
  let (a, b, c, d) := (List.range 64).foldl (md5Round M) st
  (add32 st.1 a, add32 st.2.1 b, add32 st.2.2.1 c, add32 st.2.2.2 d)

/-- MD5 padding: 0x80, zeros to 56 mod 64, 64-bit little-endian bit length. -/
def md5Pad (msg : List Nat) : List Nat :=
  let L := msg.length
  let z := (120 - (L + 1) % 64) % 64
  msg ++ [128] ++ List.replicate z 0 ++ leBytes 8 ((8 * L) % 18446744073709551616)

/-- Worker for `chunks64`, fuelled for kernel evaluation; each step consumes
at least one byte, so fuel `l.length` never runs out. -/
def chunks64Go : Nat → List Nat → List (List Nat)
  | 0, _ => []
  | fuel + 1, l =>
    match l with
    | [] => []
    | c :: t => (c :: t).take 64 :: chunks64Go fuel ((c :: t).drop 64)

/-- Split a byte list into 64-byte chunks. -/
def chunks64 (l : List Nat) : List (List Nat) :=
  chunks64Go l.length l

/-- The MD5 digest (16 bytes) of a byte list. -/
def md5Bytes (msg : List Nat) : List Nat :=
  let st := (chunks64 (md5Pad msg)).foldl md5Chunk
    (0x67452301, 0xefcdab89, 0x98badcfe, 0x10325476)
  leBytes 4 st.1 ++ leBytes 4 st.2.1 ++ leBytes 4 st.2.2.1 ++ leBytes 4 st.2.2.2

def hexDigitChar (n : Nat) : Char :=
  (String.data "0123456789abcdef").getD n '0'

/-- Lowercase hex rendering of a byte list (`hexdigest`). -/
def hexOfBytes (l : List Nat) : String :=
  String.mk (l.foldr (fun b acc => hexDigitChar (b / 16) :: hexDigitChar (b % 16) :: acc) [])

/-- UTF-8 encoding of one character (`str.encode()`). -/
def utf8Char (c : Char) : List Nat :=
  let n := c.toNat
  if n < 128 then [n]
  else if n < 2048 then [192 + n / 64, 128 + n % 64]
  else if n < 65536 then [224 + n / 4096, 128 + (n / 64) % 64, 128 + n % 64]
  else [240 + n / 262144, 128 + (n / 4096) % 64, 128 + (n / 64) % 64, 128 + n % 64]

def utf8Bytes (s : String) : List Nat :=
  s.data.foldr (fun c acc => utf8Char c ++ acc) []

/-- `hashlib.md5(s.encode()).hexdigest()`. -/
def md5hex (s : String) : String :=
  hexOfBytes (md5Bytes (utf8Bytes s))

/-! ## Regex scanners used by `initiator.py` -/

/-- Capture `([^c]+)c`: a non-empty run of characters other than `stop`,
followed by (and consuming) `stop`. -/
def capTill (stop : Char) (s : List Char) : Option (List Char × List Char) :=
  let cap := s.takeWhile (· ≠ stop)
  if cap = [] then none
  else
    match s.dropWhile (· ≠ stop) with
    | _ :: r => some (cap, r)
    | [] => none

/-- Capture a non-empty `takeWhile p` run (`(\S+)`, `([^;\s]+)`, `(\d+)`). -/
def capWhile (p : Char → Bool) (s : List Char) : Option (List Char × List Char) :=
  let cap := s.takeWhile p
  if cap = [] then none else some (cap, s.dropWhile p)

/-- One attempted match of
`WWW-Authenticate:\s*Digest realm="([^"]+)",\s*nonce="([^"]+)"`
at the head of the input. -/
def tryDigestAt (s : List Char) : Option (List Char × List Char) :=
  match dropLit (String.data "WWW-Authenticate:") s with
  | none => none
  | some r1 =>
    match dropLit (String.data "Digest realm=\"") (r1.dropWhile isPyWS) with
    | none => none
    | some r2 =>
      match capTill '"' r2 with
      | none => none
      | some (realm, r3) =>
        match dropLit [','] r3 with
        | none => none
        | some r4 =>
          match dropLit (String.data "nonce=\"") (r4.dropWhile isPyWS) with
          | none => none
          | some r5 =>
            match capTill '"' r5 with
            | none => none
            | some (nonce, _) => some (realm, nonce)

/-- `re.search(r'WWW-Authenticate:\s*Digest realm="([^"]+)",\s*nonce="([^"]+)"', s)`. -/
def findDigestChallenge (s : String) : Option (String × String) :=
  (searchA tryDigestAt s.data).map fun p => (String.mk p.1, String.mk p.2)

/-- One attempted match of `Content-Base:\s*(\S+)` at the head of the input. -/
def tryContentBaseAt (s : List Char) : Option (List Char) :=
  match dropLit (String.data "Content-Base:") s with
  | none => none
  | some r1 =>
    match capWhile (fun c => !isPyWS c) (r1.dropWhile isPyWS) with
    | none => none
    | some (cb, _) => some cb

/-- `re.search(r"Content-Base:\s*(\S+)", s)`. -/
def findContentBase (s : String) : Option String :=
  (searchA tryContentBaseAt s.data).map String.mk

/-- One attempted match of `Session:\s*([^;\s]+)` at the head of the input. -/
def trySessionAt (s : List Char) : Option (List Char) :=
  match dropLit (String.data "Session:") s with
  | none => none
  | some r1 =>
    match capWhile (fun c => !(c = ';' || isPyWS c)) (r1.dropWhile isPyWS) with
    | none => none
    | some (sess, _) => some sess

/-- `re.search(r"Session:\s*([^;\s]+)", s)`. -/
def findSessionId (s : String) : Option String :=
  (searchA trySessionAt s.data).map String.mk

/-- One attempted match of `server_port=(\d+)-(\d+)` at the head of the input. -/
def tryServerPortAt (s : List Char) : Option (Nat × Nat) :=
  match dropLit (String.data "server_port=") s with
  | none => none
  | some r1 =>
    match capWhile Char.isDigit r1 with
    | none => none
    | some (d1, r2) =>
      match dropLit ['-'] r2 with
      | none => none
      | some r3 =>
        match capWhile Char.isDigit r3 with
        | none => none
        | some (d2, _) => some (digitsToNat d1, digitsToNat d2)

/-- `re.search(r"server_port=(\d+)-(\d+)", s)` with both groups through `int`. -/
def findServerPort (s : String) : Option (Nat × Nat) :=
  searchA tryServerPortAt s.data

/-- One attempted match of `a=control:(.*)` at the head of the input; the
capture runs to the end of the line (`.` does not match `\n`). -/
def tryControlAt (s : List Char) : Option (List Char) :=
  match dropLit (String.data "a=control:") s with
  | none => none
  | some r1 => some (r1.takeWhile (· ≠ '\n'))

/-- `re.search(r"a=control:(.*)", s)`, group 1. -/
def searchControlCap (s : List Char) : Option (List Char) :=
  searchA tryControlAt s

/-! ## SDP track resolution (step 5 of the handshake) -/

/-- The loop body of step 5: scan the `"m="`-split fragments; on the first
fragment containing `a=sendonly` whose `a=control:` pattern matches, return
the stripped capture (`break`); a sendonly fragment without a control match
is skipped (no `break` in the source when `m2` is `None`). -/
def findTalkControl : List (List Char) → Option (List Char)
  | [] => none
  | sec :: rest =>
    if containsSub (String.data "a=sendonly") sec then
      match searchControlCap sec with
      | some cap => some (stripChars cap)
      | none => findTalkControl rest
    else findTalkControl rest

/-- `sdp.split("m=")` of the body text. -/
def splitSections (sdp : String) : List (List Char) :=
  splitAll 'm' ['='] sdp.data

/-- `content_base = cb_match.group(1).rstrip("/") + "/"`. -/
def normContentBase (cb : String) : String := rstripSlash cb ++ "/"

/-- `resp2.split("\r\n\r\n", 1)[1] if "\r\n\r\n" in resp2 else ""`. -/
def bodyOf (resp : String) : String :=
  match splitFirst (String.data "\r\n\r\n") resp.data with
  | some (_, b) => String.mk b
  | none => ""

/-- The talk-back URL computed by steps 4–5 from a content-base and an SDP
body: `content_base + talk_control` when the loop found a control, and the
`if not talk_control: raise RTSPHandshakeError` path (`none`) when it found
nothing or the stripped capture is the empty string (Python `""` is falsy). -/
def resolveTalkURL (cb sdp : String) : Option String :=
  match findTalkControl (splitSections sdp) with
  | none => none
  | some tc => if tc = [] then none else some (normContentBase cb ++ String.mk tc)

/-! ## The machine state and error model -/

/-- Exceptions that the embedded code can raise.  `connectError` and
`transportError` stand for the `OSError`s of `socket.create_connection` and
`recv`; `assertionError` is Python's `AssertionError`; `indexError` is the
`IndexError` from `resp.splitlines()[0]` on an empty response. -/
inductive Err where
  | authError (msg : String)
  | handshakeError (msg : String)
  | connectError
  | transportError
  | assertionError
  | indexError
deriving Repr, DecidableEq

/-- Whether an error is an `RTSPAuthError`. -/
def Err.isAuth : Err → Bool
  | .authError _ => true
  | _ => false

/-- A request as passed to `sendall`, with ghost observations: the `CSeq`
value the machine stamped into it and whether it carries an `Authorization`
header. -/
structure Req where
  raw : String
  cseq : Nat
  hasAuth : Bool
deriving Repr, DecidableEq

/-- The attribute state of one `TalkBackInitiator` instance, plus the test
double for the network: `connectOk` decides `socket.create_connection`,
`script` holds the successive `recv` return values (exhaustion = an `OSError`
on `recv`), and `trace` records every request handed to `sendall`. -/
structure St where
  username : Option String
  password : Option String
  host : String
  port : Nat
  path : String
  clientPort : Nat
  connectOk : Bool
  script : List String
  sock : Bool
  sessionId : Option String
  realm : Option String
  nonce : Option String
  uriBase : Option String
  backPort : Option Nat
  cseq : Nat
  trace : List Req
deriving Repr, DecidableEq

/-- Python truthiness of an optional string (`None` and `""` are falsy). -/
def truthyS : Option String → Bool
  | none => false
  | some s => !(s = "")

/-- `__init__`: parsed URL parts, `client_port or settings.default_client_port`
(`or`, so `0` also falls back to the default `5000`), and the handshake state
(`_cseq` preset to `5`). -/
def initSt (username password : Option String) (host : String) (port : Nat)
    (path : String) (clientPortArg : Option Nat) (connectOk : Bool)
    (script : List String) : St :=
  { username, password, host, port, path
    clientPort := match clientPortArg with
      | none => 5000
      | some 0 => 5000
      | some n => n
    connectOk, script
    sock := false, sessionId := none, realm := none, nonce := none
    uriBase := none, backPort := none, cseq := 5, trace := [] }

/-! ## `_send`, `_build_authorization`, `_send_simple` -/

/-- `_send`: raise if the socket is closed, `sendall` the request (recorded in
the trace), then one `recv` (the next script entry; exhaustion raises). -/
def rtspSend (r : Req) (s : St) : Except Err String × St :=
  if s.sock = false then (.error (.handshakeError "Socket is not open"), s)
  else
    match s.script with
    | [] => (.error .transportError, { s with trace := s.trace ++ [r] })
    | resp :: rest =>
      (.ok resp, { s with trace := s.trace ++ [r], script := rest })

/-- `_build_authorization`: `RTSPAuthError` when a credential is `None`, the
`assert self._realm and self._nonce`, then the RFC 2617 MD5 chain and the
exact header text. -/
def buildAuthorization (method uri : String) (s : St) : Except Err String × St :=
  match s.username, s.password with
  | some u, some p =>
    match s.realm, s.nonce with
    | some realm, some nonce =>
      if realm = "" || nonce = "" then (.error .assertionError, s)
      else
        let ha1 := md5hex (u ++ ":" ++ realm ++ ":" ++ p)
        let ha2 := md5hex (method ++ ":" ++ uri)
        let resp := md5hex (ha1 ++ ":" ++ nonce ++ ":" ++ ha2)
        (.ok ("Digest username=\"" ++ u ++ "\", realm=\"" ++ realm ++
              "\", nonce=\"" ++ nonce ++ "\", uri=\"" ++ uri ++
              "\", response=\"" ++ resp ++ "\""), s)
    | _, _ => (.error .assertionError, s)
  | _, _ => (.error (.authError "No credentials for digest auth"), s)

/-- `resp.splitlines()[0]`: `IndexError` on an empty response, otherwise the
text before the first line break. -/
def firstLineOf (resp : String) : Option String :=
  if resp = "" then none
  else some (String.mk (resp.data.takeWhile (fun c => !isLineBreak c)))

/-- `"Session: ..."` line: only added when `session` is truthy. -/
def sessionPart : Option String → String
  | none => ""
  | some sess => if sess = "" then "" else "Session: " ++ sess ++ "\r\n"

/-- `resp.startswith("RTSP/1.0 200")`. -/
def isOk200 (resp : String) : Bool :=
  (String.data "RTSP/1.0 200").isPrefixOf resp.data

/-- The request text assembled by `_send_simple`, as a `Req` (the CSeq and
the presence of the `Authorization` header recorded as ghost fields). -/
def simpleReq (method uri : String) (cseq : Nat) (auth : String)
    (session : Option String) : Req :=
  { raw := method ++ " " ++ uri ++ " RTSP/1.0\r\n" ++
      "CSeq: " ++ toString cseq ++ "\r\n" ++
      "Authorization: " ++ auth ++ "\r\n" ++
      sessionPart session ++ "\r\n"
    cseq := cseq, hasAuth := true }

/-- `_send_simple`: build the authorization header, format the request, send
it, then decide success by the status line; on failure either raise
`RTSPHandshakeError(f"{method} failed: {resp.splitlines()[0]}")` or return
`False`. -/
def sendSimple (method uri : String) (cseq : Nat) (session : Option String)
    (raiseOnError : Bool) (s : St) : Except Err Bool × St :=
  match buildAuthorization method uri s with
  | (.error e, s) => (.error e, s)
  | (.ok auth, s) =>
    match rtspSend (simpleReq method uri cseq auth session) s with
    | (.error e, s) => (.error e, s)
    | (.ok resp, s) =>
      if isOk200 resp then (.ok true, s)
      else if raiseOnError then
        match firstLineOf resp with
        | none => (.error .indexError, s)
        | some l => (.error (.handshakeError (method ++ " failed: " ++ l)), s)
      else (.ok false, s)

/-! ## Public operations -/

/-- `keep_alive`: guard on `self._sock` and `self._uri_base`, increment
`self._cseq`, then `_send_simple` with the default `raise_on_error=True`. -/
def keepAlive (s : St) : Except Err Bool × St :=
  if s.sock = false || !truthyS s.uriBase then (.ok false, s)
  else
    let s := { s with cseq := s.cseq + 1 }
    sendSimple "OPTIONS" (s.uriBase.getD "") s.cseq s.sessionId true s

/-- `terminate`: guard on `self._sock` and `self._uri_base`; best-effort
TEARDOWN at `self._cseq + 1` with every exception swallowed by
`except Exception`, then the `finally` block closes the socket. -/
def terminate (s : St) : Except Err Unit × St :=
  if s.sock = false || !truthyS s.uriBase then (.ok (), s)
  else
    let s1 := (sendSimple "TEARDOWN" (s.uriBase.getD "") (s.cseq + 1)
      s.sessionId false s).2
    (.ok (), { s1 with sock := false })

/-! ## The handshake (`_do_rtsp_handshake`) and `start` -/

/-- `f"rtsp://{host}:{port}/{path}"`. -/
def uriBaseOf (s : St) : String :=
  "rtsp://" ++ s.host ++ ":" ++ toString s.port ++ "/" ++ s.path

/-- Step-1 unauthenticated DESCRIBE request text. -/
def describe1Req (ub : String) : String :=
  "DESCRIBE " ++ ub ++ " RTSP/1.0\r\n" ++
  "CSeq: 1\r\n" ++
  "Accept: application/sdp\r\n" ++
  "Require: www.onvif.org/ver20/backchannel\r\n\r\n"

/-- Step-3 authenticated DESCRIBE request text. -/
def describe2Req (ub auth : String) : String :=
  "DESCRIBE " ++ ub ++ " RTSP/1.0\r\n" ++
  "CSeq: 2\r\n" ++
  "Accept: application/sdp\r\n" ++
  "Require: www.onvif.org/ver20/backchannel\r\n" ++
  "Authorization: " ++ auth ++ "\r\n\r\n"

/-- Step-6 SETUP request text. -/
def setupReq (talkUrl : String) (clientPort : Nat) (auth : String) : String :=
  "SETUP " ++ talkUrl ++ " RTSP/1.0\r\n" ++
  "CSeq: 3\r\n" ++
  "Transport: RTP/AVP;unicast;client_port=" ++ toString clientPort ++ "-" ++
    toString (clientPort + 1) ++ "\r\n" ++
  "Authorization: " ++ auth ++ "\r\n\r\n"

/-- `_do_rtsp_handshake`, step for step: set `_uri_base`, connect, DESCRIBE
(CSeq 1), capture the digest challenge, authenticated DESCRIBE (CSeq 2),
extract `Content-Base`, find the sendonly control track, SETUP (CSeq 3),
extract `Session` and `server_port`, set `_cseq = 4`, PLAY (CSeq 4). -/
def doRtspHandshake (s : St) : Except Err Unit × St :=
  let ub := uriBaseOf s
  let s := { s with uriBase := some ub }
  if s.connectOk = false then (.error .connectError, s)
  else
    let s := { s with sock := true }
    match rtspSend { raw := describe1Req ub, cseq := 1, hasAuth := false } s with
    | (.error e, s) => (.error e, s)
    | (.ok resp1, s) =>
      match findDigestChallenge resp1 with
      | none => (.error (.authError "Digest challenge not received from camera"), s)
      | some (realm, nonce) =>
        let s := { s with realm := some realm, nonce := some nonce }
        match buildAuthorization "DESCRIBE" ub s with
        | (.error e, s) => (.error e, s)
        | (.ok authHeader, s) =>
          match rtspSend { raw := describe2Req ub authHeader, cseq := 2, hasAuth := true } s with
          | (.error e, s) => (.error e, s)
          | (.ok resp2, s) =>
            match findContentBase resp2 with
            | none => (.error (.handshakeError "Content-Base header missing"), s)
            | some cb =>
              let contentBase := normContentBase cb
              let sdp := bodyOf resp2
              match findTalkControl (splitSections sdp) with
              | none => (.error (.handshakeError "No talk-back (a=sendonly) track found"), s)
              | some tc =>
                if tc = [] then
                  (.error (.handshakeError "No talk-back (a=sendonly) track found"), s)
                else
                  let talkUrl := contentBase ++ String.mk tc
                  match buildAuthorization "SETUP" talkUrl s with
                  | (.error e, s) => (.error e, s)
                  | (.ok auth3, s) =>
                    match rtspSend { raw := setupReq talkUrl s.clientPort auth3,
                                     cseq := 3, hasAuth := true } s with
                    | (.error e, s) => (.error e, s)
                    | (.ok setupResp, s) =>
                      match findSessionId setupResp with
                      | none => (.error (.handshakeError "Session header missing in SETUP"), s)
                      | some sess =>
                        let s := { s with sessionId := some sess }
                        match findServerPort setupResp with
                        | none => (.error (.handshakeError "server_port missing in SETUP"), s)
                        | some sp =>
                          let s := { s with backPort := some sp.1 }
                          let s := { s with cseq := 4 }
                          match sendSimple "PLAY" ub 4 s.sessionId true s with
                          | (.error e, s) => (.error e, s)
                          | (.ok ok, s) =>
                            if ok then (.ok (), s)
                            else (.error (.handshakeError "PLAY failed"), s)

/-- `start`: run the handshake; on success return
`(self._url.host, self._back_channel_port)`; on any exception run
`self.terminate()` and re-raise. -/
def start (s : St) : Except Err (String × Nat) × St :=
  match doRtspHandshake s with
  | (.ok _, s) => (.ok (s.host, s.backPort.getD 0), s)
  | (.error e, s) =>
    match terminate s with
    | (.ok _, s) => (.error e, s)
    | (.error e2, s) => (.error e2, s)

/-! ## Operation sequences and the wire trace -/

/-- The public mutating operations a caller may interleave after `start`. -/
inductive Op where
  | kaOp
  | termOp
deriving Repr, DecidableEq

/-- Run a sequence of public operations, ignoring their results (a caller
that catches exceptions and keeps going). -/
def runOps (s : St) : List Op → St
  | [] => s
  | .kaOp :: rest => runOps (keepAlive s).2 rest
  | .termOp :: rest => runOps (terminate s).2 rest

/-- The CSeq values sent on the wire, in order. -/
def traceCseqs (s : St) : List Nat := s.trace.map Req.cseq

/-- "Starts at 1 and increases strictly by exactly 1 per request sent". -/
def exactlyConsecutive (l : List Nat) : Prop := l = List.range' 1 l.length

instance : DecidablePred exactlyConsecutive := fun l =>
  inferInstanceAs (Decidable (l = List.range' 1 l.length))

/-! ## Spec-side definitions (for refinement-style claims) -/

/-- Modelled from the spec, §4.2: the RFC 2617 non-qop digest response
`hex(MD5(hex(MD5("username:realm:password")) + ":" + nonce + ":" +
hex(MD5("method:request-uri"))))`. -/
def rfc2617Response (username password realm nonce method uri : String) : String :=
  md5hex (md5hex (username ++ ":" ++ realm ++ ":" ++ password) ++ ":" ++ nonce
    ++ ":" ++ md5hex (method ++ ":" ++ uri))

/-- Modelled from the spec, §4.2: the full authorization header text built
from the RFC 2617 response. -/
def rfc2617Header (username password realm nonce method uri : String) : String :=
  "Digest username=\"" ++ username ++ "\", realm=\"" ++ realm ++
  "\", nonce=\"" ++ nonce ++ "\", uri=\"" ++ uri ++ "\", response=\"" ++
  rfc2617Response username password realm nonce method uri ++ "\""

/-- Declarative form of the step-5 loop: the first `"m="`-split fragment that
contains `a=sendonly` and whose `a=control:` pattern matches, with the
stripped capture. -/
def firstSendonlyControl (sdp : String) : Option (List Char) :=
  ((splitSections sdp).find? fun sec =>
      containsSub (String.data "a=sendonly") sec && (searchControlCap sec).isSome).bind
    fun sec => (searchControlCap sec).map stripChars

/-- The claim's reading of the resolver: only "media sections" (the fragments
after the session-level preamble, which is the first `"m="`-split fragment)
are scanned, and the first one marked `a=sendonly` supplies the control path. -/
def claimFirstMediaControl (sdp : String) : Option (List Char) :=
  (((splitSections sdp).drop 1).find? fun sec =>
      containsSub (String.data "a=sendonly") sec).bind
    fun sec => (searchControlCap sec).map stripChars

/-- The claim's reading of the full resolution. -/
def claimResolveTalkURL (cb sdp : String) : Option String :=
  (claimFirstMediaControl sdp).map fun tc => normContentBase cb ++ String.mk tc

/-! ## Helper lemmas: scanning functions on `concrete ++ abstract` inputs -/

theorem dropLit_append (lit a b r : List Char) (h : dropLit lit a = some r) :
    dropLit lit (a ++ b) = some (r ++ b) := by
  induction lit generalizing a r with
  | nil => simp [dropLit] at h; subst h; simp [dropLit]
  | cons l lt ih =>
    cases a with
    | nil => simp [dropLit] at h
    | cons c ct =>
      rw [dropLit] at h
      by_cases hc : c = l
      · rw [List.cons_append, dropLit]
        simp only [hc, if_true] at h ⊢
        exact ih ct r h
      · simp [hc] at h

theorem dropWhile_append_stop (p : Char → Bool) (a b : List Char)
    (h : a.dropWhile p ≠ []) :
    (a ++ b).dropWhile p = a.dropWhile p ++ b := by
  induction a with
  | nil => simp at h
  | cons c t ih =>
    by_cases hp : p c
    · simp only [List.cons_append, List.dropWhile_cons, hp] at h ⊢
      exact ih h
    · simp [List.dropWhile_cons, hp]

theorem takeWhile_append_stop (p : Char → Bool) (a b : List Char)
    (h : a.dropWhile p ≠ []) :
    (a ++ b).takeWhile p = a.takeWhile p := by
  induction a with
  | nil => simp at h
  | cons c t ih =>
    by_cases hp : p c
    · simp only [List.cons_append, List.takeWhile_cons, List.dropWhile_cons, hp] at h ⊢
      rw [ih h]
    · simp [List.takeWhile_cons, hp]

theorem isPrefixOf_append_of_le (pat x b : List Char) (h : pat.length ≤ x.length) :
    pat.isPrefixOf (x ++ b) = pat.isPrefixOf x := by
  rcases hx : pat.isPrefixOf x with _ | _
  · rcases hxb : pat.isPrefixOf (x ++ b) with _ | _
    · rfl
    · exfalso
      have hpre : pat <+: (x ++ b) := List.isPrefixOf_iff_prefix.mp hxb
      have htake : pat = (x ++ b).take pat.length := by
        obtain ⟨t, ht⟩ := hpre
        rw [← ht]
        simp
      rw [List.take_append_of_le_length h] at htake
      have : pat <+: x := by
        rw [htake]
        exact List.take_prefix _ _
      rw [List.isPrefixOf_iff_prefix.mpr this] at hx
      exact Bool.false_ne_true hx.symm
  · have hpre : pat <+: x := List.isPrefixOf_iff_prefix.mp hx
    have : pat <+: (x ++ b) := hpre.trans (List.prefix_append x b)
    rw [List.isPrefixOf_iff_prefix.mpr this]

theorem splitFirst_prefix (pat b : List Char) :
    splitFirst pat (pat ++ b) = some ([], b) := by
  have hpre : pat.isPrefixOf (pat ++ b) = true :=
    List.isPrefixOf_iff_prefix.mpr (List.prefix_append pat b)
  rcases hpb : pat ++ b with _ | ⟨c, t⟩
  · have hp : pat = [] := by cases pat <;> simp_all
    have hb : b = [] := by rw [hp] at hpb; simpa using hpb
    subst hp; subst hb
    simp [splitFirst]
  · rw [hpb] at hpre
    rw [splitFirst, hpre]
    simp only [if_true]
    rw [← hpb, List.drop_left]

theorem splitFirst_append_concat (pat a b : List Char)
    (h : splitFirst pat (a ++ pat) = some (a, [])) :
    splitFirst pat ((a ++ pat) ++ b) = some (a, b) := by
  induction a with
  | nil =>
    simp only [List.nil_append]
    exact splitFirst_prefix pat b
  | cons x xt ih =>
    have hlen : pat.length ≤ (x :: (xt ++ pat)).length := by
      simp only [List.length_cons, List.length_append]
      omega
    have hnopre : pat.isPrefixOf (x :: (xt ++ pat)) = false := by
      rcases hp : pat.isPrefixOf (x :: (xt ++ pat)) with _ | _
      · rfl
      · exfalso
        rw [List.cons_append, splitFirst, hp] at h
        simp at h
    rw [List.cons_append, splitFirst, hnopre] at h
    simp only [Bool.false_eq_true, if_false] at h
    have hrec : splitFirst pat (xt ++ pat) = some (xt, []) := by
      revert h
      cases hr : splitFirst pat (xt ++ pat) with
      | none => intro h; simp at h
      | some ab =>
        intro h
        obtain ⟨a', b'⟩ := ab
        simp only [Option.some.injEq, Prod.mk.injEq, List.cons.injEq] at h
        obtain ⟨⟨-, ha⟩, hb⟩ := h
        rw [ha, hb]
    have hih := ih hrec
    have hshape : (x :: xt ++ pat) ++ b = x :: (xt ++ pat ++ b) := by simp
    rw [hshape, splitFirst]
    have hnopre2 : pat.isPrefixOf (x :: (xt ++ pat ++ b)) = false := by
      have hsh2 : x :: (xt ++ pat ++ b) = (x :: (xt ++ pat)) ++ b := by simp
      rw [hsh2, isPrefixOf_append_of_le pat _ b hlen]
      exact hnopre
    rw [hnopre2]
    simp only [Bool.false_eq_true, if_false]
    rw [hih]

theorem searchA_head {α : Type} (f : List Char → Option α) (s : List Char)
    (r : α) (h : f s = some r) : searchA f s = some r := by
  cases s with
  | nil => rw [searchA]; exact h
  | cons c t => rw [searchA, h]

/-! ## Helper lemmas: effects of the embedded operations on the state -/

theorem buildAuthorization_snd (m u : String) (s : St) :
    (buildAuthorization m u s).2 = s := by
  unfold buildAuthorization
  rcases s.username with _ | un <;> rcases s.password with _ | pw <;>
    try rfl
  rcases s.realm with _ | re <;> rcases s.nonce with _ | no <;>
    simp only <;> split <;> rfl

theorem rtspSend_cseq (r : Req) (s : St) : (rtspSend r s).2.cseq = s.cseq := by
  unfold rtspSend
  split
  · rfl
  · split <;> rfl

theorem rtspSend_sock (r : Req) (s : St) : (rtspSend r s).2.sock = s.sock := by
  unfold rtspSend
  split
  · rfl
  · split <;> rfl

theorem rtspSend_uriBase (r : Req) (s : St) :
    (rtspSend r s).2.uriBase = s.uriBase := by
  unfold rtspSend
  split
  · rfl
  · split <;> rfl

theorem rtspSend_trace (r : Req) (s : St) :
    (rtspSend r s).2.trace = s.trace ∨ (rtspSend r s).2.trace = s.trace ++ [r] := by
  unfold rtspSend
  split
  · exact Or.inl rfl
  · split
    · exact Or.inr rfl
    · exact Or.inr rfl

theorem sendSimple_snd_fields (m u : String) (c : Nat) (sess : Option String)
    (ro : Bool) (s : St) :
    (sendSimple m u c sess ro s).2.cseq = s.cseq ∧
    (sendSimple m u c sess ro s).2.sock = s.sock ∧
    (sendSimple m u c sess ro s).2.uriBase = s.uriBase ∧
    ((sendSimple m u c sess ro s).2.trace = s.trace ∨
      ∃ q : Req, q.cseq = c ∧ (sendSimple m u c sess ro s).2.trace = s.trace ++ [q]) := by
  unfold sendSimple
  rcases hb : buildAuthorization m u s with ⟨res, s'⟩
  obtain rfl : s = s' := by
    have := buildAuthorization_snd m u s
    rw [hb] at this
    exact this.symm
  cases res with
  | error e => exact ⟨rfl, rfl, rfl, Or.inl rfl⟩
  | ok auth =>
    dsimp only
    rcases hsend : rtspSend (simpleReq m u c auth sess) s with ⟨res2, s2⟩
    have hc2 : s2.cseq = s.cseq := by
      have := rtspSend_cseq (simpleReq m u c auth sess) s
      rw [hsend] at this
      exact this
    have hso2 : s2.sock = s.sock := by
      have := rtspSend_sock (simpleReq m u c auth sess) s
      rw [hsend] at this
      exact this
    have hu2 : s2.uriBase = s.uriBase := by
      have := rtspSend_uriBase (simpleReq m u c auth sess) s
      rw [hsend] at this
      exact this
    have ht2 : s2.trace = s.trace ∨
        ∃ q : Req, q.cseq = c ∧ s2.trace = s.trace ++ [q] := by
      have := rtspSend_trace (simpleReq m u c auth sess) s
      rw [hsend] at this
      rcases this with h | h
      · exact Or.inl h
      · exact Or.inr ⟨simpleReq m u c auth sess, rfl, h⟩
    cases res2 with
    | error e => exact ⟨hc2, hso2, hu2, ht2⟩
    | ok resp =>
      dsimp only
      split
      · exact ⟨hc2, hso2, hu2, ht2⟩
      · split
        · split
          · exact ⟨hc2, hso2, hu2, ht2⟩
          · exact ⟨hc2, hso2, hu2, ht2⟩
        · exact ⟨hc2, hso2, hu2, ht2⟩

/-! ## The CSeq invariant -/

/-- The well-formedness invariant for the wire trace: CSeq values strictly
increase in the order sent, every sent value is bounded by the counter while
the socket is open, the first request (if any) used CSeq 1, and an open
socket means at least one request has been sent. -/
def TraceInv (s : St) : Prop :=
  s.trace.Pairwise (fun a b => a.cseq < b.cseq) ∧
  (s.sock = true → ∀ r ∈ s.trace, r.cseq ≤ s.cseq) ∧
  (∀ r, s.trace.head? = some r → r.cseq = 1) ∧
  (s.sock = true → s.trace ≠ [])

theorem pairwise_concat_lt (l : List Req) (x : Req)
    (hl : l.Pairwise (fun a b => a.cseq < b.cseq))
    (hx : ∀ a ∈ l, a.cseq < x.cseq) :
    (l ++ [x]).Pairwise (fun a b => a.cseq < b.cseq) := by
  rw [List.pairwise_append]
  refine ⟨hl, List.pairwise_singleton _ _, ?_⟩
  intro a ha b hb
  rw [List.mem_singleton] at hb
  subst hb
  exact hx a ha

theorem head?_append_left {l l' : List Req} (h : l ≠ []) :
    (l ++ l').head? = l.head? := by
  cases l with
  | nil => exact absurd rfl h
  | cons a t => simp

theorem keepAlive_inv (s : St) (h : TraceInv s) : TraceInv (keepAlive s).2 := by
  obtain ⟨hpw, hbound, hhead, hne⟩ := h
  unfold keepAlive
  split
  · exact ⟨hpw, hbound, hhead, hne⟩
  · rename_i hguard
    have hsock : s.sock = true := by
      cases hs : s.sock with
      | false => exact absurd (by simp [hs]) hguard
      | true => rfl
    obtain ⟨hc, hso, hu, ht⟩ := sendSimple_snd_fields "OPTIONS"
      (({ s with cseq := s.cseq + 1 } : St).uriBase.getD "") (s.cseq + 1)
      s.sessionId true { s with cseq := s.cseq + 1 }
    rcases ht with ht | ⟨q, hq, ht⟩
    · refine ⟨?_, ?_, ?_, ?_⟩
      · rw [ht]; exact hpw
      · intro _ r hr
        rw [ht] at hr
        have := hbound hsock r hr
        rw [hc]
        simp only
        omega
      · intro r hr
        rw [ht] at hr
        exact hhead r hr
      · intro hs2
        rw [ht]
        exact hne hsock
    · refine ⟨?_, ?_, ?_, ?_⟩
      · rw [ht]
        refine pairwise_concat_lt _ _ hpw ?_
        intro a ha
        have := hbound hsock a ha
        rw [hq]
        omega
      · intro _ r hr
        rw [ht] at hr
        rw [hc]
        simp only
        rcases List.mem_append.mp hr with hr | hr
        · have := hbound hsock r hr
          omega
        · rw [List.mem_singleton] at hr
          subst hr
          rw [hq]
      · intro r hr
        rw [ht, head?_append_left (hne hsock)] at hr
        exact hhead r hr
      · intro hs2
        rw [ht]
        intro hcon
        exact (hne hsock) (List.append_eq_nil.mp hcon).1

theorem terminate_fst (s : St) : (terminate s).1 = .ok () := by
  unfold terminate
  split <;> rfl

theorem terminate_of_guard (s : St)
    (h : (decide (s.sock = false) || !truthyS s.uriBase) = true) :
    terminate s = (.ok (), s) := by
  unfold terminate
  rw [if_pos h]

theorem terminate_of_open (s : St)
    (h : (decide (s.sock = false) || !truthyS s.uriBase) = false) :
    terminate s = (.ok (), { (sendSimple "TEARDOWN" (s.uriBase.getD "")
      (s.cseq + 1) s.sessionId false s).2 with sock := false }) := by
  unfold terminate
  rw [if_neg (by rw [h]; simp)]

theorem keepAlive_of_guard (s : St)
    (h : (decide (s.sock = false) || !truthyS s.uriBase) = true) :
    keepAlive s = (.ok false, s) := by
  unfold keepAlive
  rw [if_pos h]

theorem terminate_sock_guard_or_closed (s : St) :
    (terminate s).2.sock = false ∨ (terminate s).2 = s := by
  rcases hg : (decide (s.sock = false) || !truthyS s.uriBase) with _ | _
  · rw [terminate_of_open s hg]
    exact Or.inl rfl
  · rw [terminate_of_guard s hg]
    exact Or.inr rfl

theorem terminate_sock_of_truthy (s : St) (h : truthyS s.uriBase = true) :
    (terminate s).2.sock = false := by
  rcases hg : (decide (s.sock = false) || !truthyS s.uriBase) with _ | _
  · rw [terminate_of_open s hg]
  · rw [terminate_of_guard s hg]
    show s.sock = false
    rcases hs : s.sock with _ | _
    · rfl
    · exfalso
      rw [h, hs] at hg
      simp at hg

theorem terminate_inv (s : St) (h : TraceInv s) : TraceInv (terminate s).2 := by
  obtain ⟨hpw, hbound, hhead, hne⟩ := h
  rcases hg : (decide (s.sock = false) || !truthyS s.uriBase) with _ | _
  · rw [terminate_of_open s hg]
    have hsock : s.sock = true := by
      rcases hs : s.sock with _ | _
      · rw [hs] at hg; simp at hg
      · rfl
    obtain ⟨hc, hso, hu, ht⟩ := sendSimple_snd_fields "TEARDOWN"
      (s.uriBase.getD "") (s.cseq + 1) s.sessionId false s
    refine ⟨?_, ?_, ?_, ?_⟩
    · dsimp only
      rcases ht with ht | ⟨q, hq, ht⟩
      · rw [ht]; exact hpw
      · rw [ht]
        refine pairwise_concat_lt _ _ hpw ?_
        intro a ha
        have := hbound hsock a ha
        rw [hq]; omega
    · intro habs
      dsimp only at habs
      exact absurd habs (by simp)
    · intro r hr
      dsimp only at hr
      rcases ht with ht | ⟨q, hq, ht⟩
      · rw [ht] at hr; exact hhead r hr
      · rw [ht, head?_append_left (hne hsock)] at hr; exact hhead r hr
    · intro habs
      dsimp only at habs
      exact absurd habs (by simp)
  · rw [terminate_of_guard s hg]
    exact ⟨hpw, hbound, hhead, hne⟩

theorem runOps_inv (ops : List Op) (s : St) (h : TraceInv s) :
    TraceInv (runOps s ops) := by
  induction ops generalizing s with
  | nil => exact h
  | cons op rest ih =>
    cases op with
    | kaOp => exact ih _ (keepAlive_inv s h)
    | termOp => exact ih _ (terminate_inv s h)

theorem rtspSend_trace_open (r : Req) (s : St) (h : s.sock = true) :
    (rtspSend r s).2.trace = s.trace ++ [r] := by
  unfold rtspSend
  rw [if_neg (by rw [h]; simp)]
  split <;> rfl

theorem rtspSend_dest (r : Req) {s sE : St} {res : Except Err String}
    (h : rtspSend r s = (res, sE)) (hs : s.sock = true) :
    sE.trace = s.trace ++ [r] ∧ sE.sock = true ∧ sE.cseq = s.cseq ∧
    sE.uriBase = s.uriBase := by
  have h2 : (rtspSend r s).2 = sE := by rw [h]
  refine ⟨?_, ?_, ?_, ?_⟩
  · rw [← h2]; exact rtspSend_trace_open r s hs
  · rw [← h2, rtspSend_sock r s]; exact hs
  · rw [← h2]; exact rtspSend_cseq r s
  · rw [← h2]; exact rtspSend_uriBase r s

theorem buildAuthorization_dest {m u : String} {s sB : St}
    {res : Except Err String} (h : buildAuthorization m u s = (res, sB)) :
    sB = s := by
  have h2 : (buildAuthorization m u s).2 = sB := by rw [h]
  rw [← h2, buildAuthorization_snd]

theorem sendSimple_dest {m u : String} {c : Nat} {sess : Option String}
    {ro : Bool} {s sP : St} {res : Except Err Bool}
    (h : sendSimple m u c sess ro s = (res, sP)) :
    sP.cseq = s.cseq ∧ sP.sock = s.sock ∧ sP.uriBase = s.uriBase ∧
    (sP.trace = s.trace ∨ ∃ q : Req, q.cseq = c ∧ sP.trace = s.trace ++ [q]) := by
  have h2 : (sendSimple m u c sess ro s).2 = sP := by rw [h]
  obtain ⟨hc, hso, hu, ht⟩ := sendSimple_snd_fields m u c sess ro s
  rw [h2] at hc hso hu ht
  exact ⟨hc, hso, hu, ht⟩

theorem traceInv_mk (sE : St) (l : List Req) (ht : sE.trace = l)
    (hpw : l.Pairwise (fun a b => a.cseq < b.cseq))
    (hbd : ∀ r ∈ l, r.cseq ≤ sE.cseq)
    (hhd : ∀ r : Req, l.head? = some r → r.cseq = 1)
    (hne : sE.sock = true → l ≠ []) : TraceInv sE := by
  refine ⟨?_, ?_, ?_, ?_⟩
  · rw [ht]; exact hpw
  · intro _ r hr
    rw [ht] at hr
    exact hbd r hr
  · intro r hr
    rw [ht] at hr
    exact hhd r hr
  · intro hs
    rw [ht]
    exact hne hs

/-- Characterization of `_do_rtsp_handshake` needed by the trace claims: from
a fresh instance (closed socket, empty trace, counter preset to 5), every
outcome satisfies the trace invariant, and `_uri_base` is set. -/
theorem handshake_main (s : St) (hso : s.sock = false) (htr : s.trace = [])
    (hcs : s.cseq = 5) :
    TraceInv (doRtspHandshake s).2 ∧
    (doRtspHandshake s).2.uriBase = some (uriBaseOf s) := by
  unfold doRtspHandshake
  dsimp only
  split
  · -- connect failed: state is `s` with only `_uri_base` set
    refine ⟨traceInv_mk _ [] (by simp [htr]) (by simp) (by simp) (by simp)
      (by intro habs; dsimp only at habs; rw [hso] at habs; simp at habs), rfl⟩
  · split
    · -- step-1 send failed (recv error): trace [CSeq 1]
      rename_i e sE heq
      obtain ⟨htE, hsE, hcE, huE⟩ := rtspSend_dest _ heq rfl
      have htrE : sE.trace = [⟨describe1Req (uriBaseOf s), 1, false⟩] := by simp [htE, htr]
      have hcsE : sE.cseq = 5 := by simp [hcE, hcs]
      refine ⟨traceInv_mk _ _ htrE (by simp) ?_ ?_ (by simp), huE.trans rfl⟩
      · intro r hr; simp at hr; subst hr; simp [hcsE]
      · intro r hr; simp at hr; simp [← hr]
    · rename_i resp1 sA heq
      obtain ⟨htA, hsA, hcA, huA⟩ := rtspSend_dest _ heq rfl
      have htrA : sA.trace = [⟨describe1Req (uriBaseOf s), 1, false⟩] := by simp [htA, htr]
      have hcsA : sA.cseq = 5 := by simp [hcA, hcs]
      have hubA : sA.uriBase = some (uriBaseOf s) := huA.trans rfl
      split
      · -- no digest challenge: state sA
        refine ⟨traceInv_mk _ _ htrA (by simp) ?_ ?_ (by simp), hubA⟩
        · intro r hr; simp at hr; subst hr; simp [hcsA]
        · intro r hr; simp at hr; simp [← hr]
      · rename_i realm nonce hfd
        split
        · -- buildAuthorization failed: state = {sA with realm, nonce}
          rename_i e2 sB2 heq2
          have hB2 := buildAuthorization_dest heq2
          subst hB2
          refine ⟨traceInv_mk _ _ htrA (by simp) ?_ ?_ (by simp), hubA⟩
          · intro r hr; simp at hr; subst hr; simp [hcsA]
          · intro r hr; simp at hr; simp [← hr]
        · rename_i auth sB2 heq2
          have hB2 := buildAuthorization_dest heq2
          subst hB2
          split
          · -- step-3 send failed: trace [1, 2]
            rename_i e3 sC heq3
            obtain ⟨htC, hsC, hcC, huC⟩ := rtspSend_dest _ heq3
              (by dsimp only; exact hsA)
            have htrC : sC.trace =
                [⟨describe1Req (uriBaseOf s), 1, false⟩,
                 ⟨describe2Req (uriBaseOf s) auth, 2, true⟩] := by
              simp [htC, htrA]
            have hcsC : sC.cseq = 5 := by simp [hcC, hcsA]
            have hubC : sC.uriBase = some (uriBaseOf s) := by
              rw [huC]; dsimp only; exact hubA
            refine ⟨traceInv_mk _ _ htrC (by simp) ?_ ?_ (by simp), hubC⟩
            · intro r hr; simp at hr
              rcases hr with hr | hr <;> (subst hr; simp [hcsC])
            · intro r hr; simp at hr; simp [← hr]
          · rename_i resp2 sC heq3
            obtain ⟨htC, hsC, hcC, huC⟩ := rtspSend_dest _ heq3
              (by dsimp only; exact hsA)
            have htrC : sC.trace =
                [⟨describe1Req (uriBaseOf s), 1, false⟩,
                 ⟨describe2Req (uriBaseOf s) auth, 2, true⟩] := by
              simp [htC, htrA]
            have hcsC : sC.cseq = 5 := by simp [hcC, hcsA]
            have hubC : sC.uriBase = some (uriBaseOf s) := by
              rw [huC]; dsimp only; exact hubA
            have leafC : TraceInv sC ∧ sC.uriBase = some (uriBaseOf s) := by
              refine ⟨traceInv_mk _ _ htrC (by simp) ?_ ?_ (by simp), hubC⟩
              · intro r hr; simp at hr
                rcases hr with hr | hr <;> (subst hr; simp [hcsC])
              · intro r hr; simp at hr; simp [← hr]
            split
            · exact leafC
            · rename_i cb hcb
              split
              · exact leafC
              · rename_i tc htc
                split
                · exact leafC
                · rename_i htcne
                  split
                  · rename_i e4 sC2 heq4
                    have h4 := (buildAuthorization_dest heq4).symm
                    subst h4
                    exact leafC
                  · rename_i auth3 sC2 heq4
                    have h4 := (buildAuthorization_dest heq4).symm
                    subst h4
                    split
                    · -- step-6 send failed: trace [1, 2, 3]
                      rename_i e5 sD heq5
                      obtain ⟨htD, hsD, hcD, huD⟩ := rtspSend_dest _ heq5 hsC
                      have htrD : sD.trace =
                          [⟨describe1Req (uriBaseOf s), 1, false⟩,
                           ⟨describe2Req (uriBaseOf s) auth, 2, true⟩,
                           ⟨setupReq (normContentBase cb ++ String.mk tc) sC.clientPort auth3, 3, true⟩] := by
                        simp [htD, htrC]
                      have hcsD : sD.cseq = 5 := by simp [hcD, hcsC]
                      have hubD : sD.uriBase = some (uriBaseOf s) := huD.trans hubC
                      refine ⟨traceInv_mk _ _ htrD (by simp) ?_ ?_ (by simp), hubD⟩
                      · intro r hr; simp at hr
                        rcases hr with hr | hr | hr <;> (subst hr; simp [hcsD])
                      · intro r hr; simp at hr; simp [← hr]
                    · rename_i resp3 sD heq5
                      obtain ⟨htD, hsD, hcD, huD⟩ := rtspSend_dest _ heq5 hsC
                      have htrD : sD.trace =
                          [⟨describe1Req (uriBaseOf s), 1, false⟩,
                           ⟨describe2Req (uriBaseOf s) auth, 2, true⟩,
                           ⟨setupReq (normContentBase cb ++ String.mk tc) sC.clientPort auth3, 3, true⟩] := by
                        simp [htD, htrC]
                      have hcsD : sD.cseq = 5 := by simp [hcD, hcsC]
                      have hubD : sD.uriBase = some (uriBaseOf s) := huD.trans hubC
                      have leafD : TraceInv sD ∧ sD.uriBase = some (uriBaseOf s) := by
                        refine ⟨traceInv_mk _ _ htrD (by simp) ?_ ?_ (by simp), hubD⟩
                        · intro r hr; simp at hr
                          rcases hr with hr | hr | hr <;> (subst hr; simp [hcsD])
                        · intro r hr; simp at hr; simp [← hr]
                      split
                      · exact leafD
                      · rename_i sess hsess
                        split
                        · -- server_port missing: state {sD with sessionId}
                          refine ⟨traceInv_mk _ _ htrD (by simp) ?_ ?_ (by simp), hubD⟩
                          · intro r hr; simp at hr
                            rcases hr with hr | hr | hr <;> (subst hr; simp [hcsD])
                          · intro r hr; simp at hr; simp [← hr]
                        · rename_i sp hsp
                          split
                          · -- PLAY raised: state sP
                            rename_i eP sP heqP
                            obtain ⟨hcP, hsoP, huP, htP⟩ := sendSimple_dest heqP
                            have hcsP : sP.cseq = 4 := hcP.trans rfl
                            have hubP : sP.uriBase = some (uriBaseOf s) := by
                              rw [huP]; dsimp only; exact hubD
                            rcases htP with htP | ⟨q, hq, htP⟩
                            · have htrP : sP.trace =
                                  [⟨describe1Req (uriBaseOf s), 1, false⟩,
                                   ⟨describe2Req (uriBaseOf s) auth, 2, true⟩,
                                   ⟨setupReq (normContentBase cb ++ String.mk tc) sC.clientPort auth3, 3, true⟩] := by
                                simp [htP, htrD]
                              refine ⟨traceInv_mk _ _ htrP (by simp) ?_ ?_ (by simp), hubP⟩
                              · intro r hr; simp at hr
                                rcases hr with hr | hr | hr <;> (subst hr; simp [hcsP])
                              · intro r hr; simp at hr; simp [← hr]
                            · have htrP : sP.trace =
                                  [⟨describe1Req (uriBaseOf s), 1, false⟩,
                                   ⟨describe2Req (uriBaseOf s) auth, 2, true⟩,
                                   ⟨setupReq (normContentBase cb ++ String.mk tc) sC.clientPort auth3, 3, true⟩] ++ [q] := by
                                simp [htP, htrD]
                              refine ⟨traceInv_mk _ _ htrP ?_ ?_ ?_ (by simp), hubP⟩
                              · refine pairwise_concat_lt _ _ (by simp) ?_
                                intro a ha; simp at ha
                                rcases ha with ha | ha | ha <;> (subst ha; simp [hq])
                              · intro r hr; simp at hr
                                rcases hr with hr | hr | hr | hr <;> simp [hr, hcsP, hq]
                              · intro r hr; simp at hr; simp [← hr]
                          · rename_i okP sP heqP
                            obtain ⟨hcP, hsoP, huP, htP⟩ := sendSimple_dest heqP
                            have hcsP : sP.cseq = 4 := hcP.trans rfl
                            have hubP : sP.uriBase = some (uriBaseOf s) := by
                              rw [huP]; dsimp only; exact hubD
                            have leafP : TraceInv sP ∧ sP.uriBase = some (uriBaseOf s) := by
                              rcases htP with htP | ⟨q, hq, htP⟩
                              · have htrP : sP.trace =
                                    [⟨describe1Req (uriBaseOf s), 1, false⟩,
                                     ⟨describe2Req (uriBaseOf s) auth, 2, true⟩,
                                     ⟨setupReq (normContentBase cb ++ String.mk tc) sC.clientPort auth3, 3, true⟩] := by
                                  simp [htP, htrD]
                                refine ⟨traceInv_mk _ _ htrP (by simp) ?_ ?_ (by simp), hubP⟩
                                · intro r hr; simp at hr
                                  rcases hr with hr | hr | hr <;> (subst hr; simp [hcsP])
                                · intro r hr; simp at hr; simp [← hr]
                              · have htrP : sP.trace =
                                    [⟨describe1Req (uriBaseOf s), 1, false⟩,
                                     ⟨describe2Req (uriBaseOf s) auth, 2, true⟩,
                                     ⟨setupReq (normContentBase cb ++ String.mk tc) sC.clientPort auth3, 3, true⟩] ++ [q] := by
                                  simp [htP, htrD]
                                refine ⟨traceInv_mk _ _ htrP ?_ ?_ ?_ (by simp), hubP⟩
                                · refine pairwise_concat_lt _ _ (by simp) ?_
                                  intro a ha; simp at ha
                                  rcases ha with ha | ha | ha <;> (subst ha; simp [hq])
                                · intro r hr; simp at hr
                                  rcases hr with hr | hr | hr | hr <;> simp [hr, hcsP, hq]
                                · intro r hr; simp at hr; simp [← hr]
                            split
                            · exact leafP
                            · exact leafP

theorem uriBaseOf_ne_empty (s : St) : ("" : String) ≠ uriBaseOf s := by
  intro h
  have hd := congrArg String.data h
  rw [uriBaseOf] at hd
  rw [String.data_append, String.data_append, String.data_append,
    String.data_append] at hd
  simp [String.data] at hd

theorem truthyS_uriBaseOf (s : St) : truthyS (some (uriBaseOf s)) = true := by
  unfold truthyS
  simp [(uriBaseOf_ne_empty s).symm]

/-- `start`: on every run from a fresh instance the trace invariant holds in
the final state, and if `start` raised then the socket is closed. -/
theorem start_main (s : St) (hso : s.sock = false) (htr : s.trace = [])
    (hcs : s.cseq = 5) :
    TraceInv (start s).2 ∧
    (∀ e : Err, (start s).1 = .error e → (start s).2.sock = false) := by
  unfold start
  rcases hh : doRtspHandshake s with ⟨res, sH⟩
  have hmain := handshake_main s hso htr hcs
  rw [hh] at hmain
  obtain ⟨hInv, hub⟩ := hmain
  cases res with
  | ok u => exact ⟨hInv, by intro e he; simp at he⟩
  | error e =>
    dsimp only
    rcases hterm : terminate sH with ⟨rt, sT⟩
    have hT2 : (terminate sH).2 = sT := by rw [hterm]
    have hTi : TraceInv sT := by rw [← hT2]; exact terminate_inv sH hInv
    have hTs : sT.sock = false := by
      rw [← hT2]
      exact terminate_sock_of_truthy sH (by rw [hub]; exact truthyS_uriBaseOf s)
    cases rt with
    | ok u => exact ⟨hTi, fun _ _ => hTs⟩
    | error e2 => exact ⟨hTi, fun _ _ => hTs⟩

/-! ## Concrete camera scripts used by the claim theorems -/

/-- A step-1 response carrying the digest challenge. -/
def chalResp : String :=
  "RTSP/1.0 401 Unauthorized\r\nCSeq: 1\r\n" ++
  "WWW-Authenticate: Digest realm=\"X\", nonce=\"Y\"\r\n\r\n"

/-- A two-section SDP with one `a=sendonly` section (`a=control:track2`). -/
def sdpTwoTrack : String :=
  "v=0\r\nm=video 0 RTP/AVP 96\r\na=recvonly\r\na=control:track1\r\n" ++
  "m=audio 0 RTP/AVP 8\r\na=sendonly\r\na=control:track2\r\n"

/-- A step-3 response: Content-Base plus the two-section SDP body. -/
def resp2TwoTrack : String :=
  "RTSP/1.0 200 OK\r\nCSeq: 2\r\nContent-Base: rtsp://cam/live/\r\n\r\n" ++
  sdpTwoTrack

/-- A step-6 response carrying session id and server ports. -/
def setupRespDemo : String :=
  "RTSP/1.0 200 OK\r\nCSeq: 3\r\nSession: abc123;timeout=60\r\n" ++
  "Transport: RTP/AVP;unicast;client_port=5000-5001;server_port=6000-6001\r\n\r\n"

/-- A 200 PLAY response. -/
def playRespDemo : String := "RTSP/1.0 200 OK\r\nCSeq: 4\r\n\r\n"

/-- A fresh instance pointed at a camera that answers the full handshake. -/
def s0demo : St :=
  initSt (some "admin") (some "1234") "cam" 554 "live" none true
    [chalResp, resp2TwoTrack, setupRespDemo, playRespDemo]

/-- The instance state after a successful `start` (an active session). -/
def startedSt : St := (start s0demo).2

/-- Sanity: the end-to-end scenario of spec §8 — `start` returns the camera
host and the negotiated back-channel port, and the session is active. -/
theorem start_demo_e2e :
    (start s0demo).1 = .ok ("cam", 6000) ∧ startedSt.sock = true ∧
    startedSt.sessionId = some "abc123" ∧ startedSt.cseq = 4 ∧
    traceCseqs startedSt = [1, 2, 3, 4] := by
  refine ⟨rfl, rfl, rfl, rfl, rfl⟩

/-- An instance with credentials and a captured challenge (realm `X`,
nonce `Y`). -/
def authSt : St := { s0demo with realm := some "X", nonce := some "Y" }

/-- An instance with credentials but no captured challenge. -/
def credSt : St :=
  initSt (some "admin") (some "1234") "cam" 554 "live" none true []

/-! ## C1 -/

/-- C1: with an active session, `keep_alive` does **not** convert a
non-success response into `False`: `_send_simple` is called with the default
`raise_on_error=True`, so a non-200 OPTIONS response raises
`RTSPHandshakeError` out of `keep_alive` instead of returning a boolean. -/
theorem c1_keepAlive_raises_on_non200 :
    startedSt.sock = true ∧ truthyS startedSt.uriBase = true ∧
    (keepAlive { startedSt with
        script := ["RTSP/1.0 454 Session Not Found\r\n\r\n"] }).1
      = .error (.handshakeError "OPTIONS failed: RTSP/1.0 454 Session Not Found") := by
  refine ⟨rfl, rfl, rfl⟩

/-! ## C6 -/

/-- C6: `_send` performs a single `recv` and does not accumulate fragments:
the same 200 response accepted when it arrives whole is treated as a failed
request (and raises) when it arrives split across two transport reads. -/
theorem c6_single_recv_misparses_fragments :
    (keepAlive { startedSt with script := ["RTSP/1.0 200 OK\r\n\r\n"] }).1
      = .ok true ∧
    (keepAlive { startedSt with script := ["RTSP", "/1.0 200 OK\r\n\r\n"] }).1
      = .error (.handshakeError "OPTIONS failed: RTSP") := by
  refine ⟨rfl, rfl⟩

/-! ## C2 -/

/-- C2: `_build_authorization` produces exactly the RFC 2617 non-qop header
(for all inputs with credentials and challenge present), and on the fixed
inputs the response digest is the pinned test vector, byte for byte. -/
theorem c2_digest_rfc2617 :
    (∀ (un pw realm nonce method uri : String) (s : St),
        s.username = some un → s.password = some pw →
        s.realm = some realm → s.nonce = some nonce →
        realm ≠ "" → nonce ≠ "" →
        (buildAuthorization method uri s).1
          = .ok (rfc2617Header un pw realm nonce method uri)) ∧
    rfc2617Response "admin" "1234" "X" "Y" "DESCRIBE" "rtsp://h/p"
      = "6e3513990323b0ff56813658f057bc19" ∧
    (buildAuthorization "DESCRIBE" "rtsp://h/p" authSt).1
      = .ok ("Digest username=\"admin\", realm=\"X\", nonce=\"Y\", uri=\"rtsp://h/p\", response=\"6e3513990323b0ff56813658f057bc19\"") := by
  refine ⟨?_, by decide, by rfl⟩
  intro un pw realm nonce method uri s h1 h2 h3 h4 h5 h6
  unfold buildAuthorization
  rw [h1, h2, h3, h4]
  dsimp only
  rw [if_neg (by simp [h5, h6])]
  rfl

theorem c2_digest_rfc2617_witness :
    (buildAuthorization "DESCRIBE" "rtsp://h/p" authSt).1
      = .ok (rfc2617Header "admin" "1234" "X" "Y" "DESCRIBE" "rtsp://h/p") :=
  c2_digest_rfc2617.1 "admin" "1234" "X" "Y" "DESCRIBE" "rtsp://h/p" authSt
    rfl rfl rfl rfl (by decide) (by decide)

/-! ## C4 -/

theorem findTalkControl_eq_find (l : List (List Char)) :
    findTalkControl l =
      (l.find? fun sec => containsSub (String.data "a=sendonly") sec
          && (searchControlCap sec).isSome).bind
        fun sec => (searchControlCap sec).map stripChars := by
  induction l with
  | nil => rfl
  | cons sec rest ih =>
    rw [findTalkControl, List.find?]
    by_cases hc : containsSub (String.data "a=sendonly") sec
    · rcases hs : searchControlCap sec with _ | cap
      · simp [hc, hs, ih]
      · simp [hc, hs]
    · simp [hc, ih]

/-- The session preamble (the text before the first `m=`) also counts:
an `a=sendonly` in the preamble wins over the first real media section. -/
def sdpPreamble : String :=
  "v=0\r\na=sendonly\r\na=control:pre\r\n" ++
  "m=audio 0 RTP/AVP 8\r\na=sendonly\r\na=control:track2\r\n"

/-- C4 counterexample: on an SDP whose session-level preamble contains
`a=sendonly` with a control attribute, the resolver returns the preamble's
control path, not that of the first media section marked send-only (which is
`track2`, the value the claim's wording dictates). -/
theorem c4_preamble_counterexample :
    resolveTalkURL "rtsp://cam/live/" sdpPreamble = some "rtsp://cam/live/pre" ∧
    claimResolveTalkURL "rtsp://cam/live/" sdpPreamble
      = some "rtsp://cam/live/track2" ∧
    resolveTalkURL "rtsp://cam/live/" sdpPreamble
      ≠ claimResolveTalkURL "rtsp://cam/live/" sdpPreamble := by
  refine ⟨by decide, by decide, by decide⟩

/-- An SDP whose only send-only fragment has a control attribute that strips
to the empty string: the code takes the `break`, then hits
`if not talk_control: raise` because `""` is falsy. -/
def sdpEmptyControl : String := "m=audio 0 RTP/AVP 8\r\na=sendonly\r\na=control:\r\n"

/-- C4 amended: the resolver scans all `"m="`-split fragments, the session
preamble included; it commits to the first fragment that contains
`a=sendonly` and whose `a=control:` pattern matches, and returns that
fragment's stripped control capture appended to the content-base normalized
to exactly one trailing `/` — unless the stripped capture is empty, in which
case it fails like the no-track case. On the claim's two-section example the
result is `rtsp://cam/live/track2`; on an SDP whose chosen fragment has an
empty control the resolver errors rather than returning the bare base. -/
theorem c4_resolver_amended :
    (∀ cb sdp : String, resolveTalkURL cb sdp =
        (firstSendonlyControl sdp).bind fun tc =>
          if tc = [] then none else some (normContentBase cb ++ String.mk tc)) ∧
    resolveTalkURL "rtsp://cam/live/" sdpTwoTrack = some "rtsp://cam/live/track2" ∧
    resolveTalkURL "rtsp://cam/live/" sdpEmptyControl = none := by
  refine ⟨?_, by decide, by decide⟩
  intro cb sdp
  have h : firstSendonlyControl sdp = findTalkControl (splitSections sdp) :=
    (findTalkControl_eq_find (splitSections sdp)).symm
  rw [h]
  unfold resolveTalkURL
  cases findTalkControl (splitSections sdp) <;> rfl

/-! ## C7 -/

/-- C7 counterexample: with credentials present but no captured challenge,
`_build_authorization` fails with `AssertionError` (from
`assert self._realm and self._nonce`), which is not an `RTSPAuthError`. -/
theorem c7_assert_counterexample :
    (buildAuthorization "DESCRIBE" "rtsp://h/p" credSt).1
      = .error .assertionError ∧
    Err.isAuth .assertionError = false := by
  refine ⟨rfl, rfl⟩

/-- C7 amended: a missing username or password raises `RTSPAuthError` (checked
first), but a missing or empty captured challenge with credentials present
raises `AssertionError`, not an authentication error. -/
theorem c7_missing_inputs (method uri : String) (s : St) :
    ((s.username = none ∨ s.password = none) →
      (buildAuthorization method uri s).1
        = .error (.authError "No credentials for digest auth")) ∧
    (∀ un pw : String, s.username = some un → s.password = some pw →
      (s.realm = none ∨ s.nonce = none ∨ s.realm = some "" ∨ s.nonce = some "") →
      (buildAuthorization method uri s).1 = .error .assertionError) := by
  constructor
  · intro h
    unfold buildAuthorization
    rcases h with h | h
    · rw [h]
    · rw [h]
      rcases s.username with _ | un <;> rfl
  · intro un pw h1 h2 h
    unfold buildAuthorization
    rw [h1, h2]
    rcases h with h | h | h | h
    · rw [h]
    · rw [h]
      rcases s.realm with _ | re <;> rfl
    · rw [h]
      rcases hn : s.nonce with _ | no
      · rfl
      · simp
    · rw [h]
      rcases hr : s.realm with _ | re
      · rfl
      · simp

theorem c7_missing_inputs_witness :
    (buildAuthorization "DESCRIBE" "rtsp://h/p" credSt).1
      = .error .assertionError :=
  (c7_missing_inputs "DESCRIBE" "rtsp://h/p" credSt).2 "admin" "1234" rfl rfl
    (Or.inl rfl)

/-! ## C8 -/

/-- C8: `terminate` never raises in any state, is idempotent (a second call
does not raise and leaves the state unchanged), works when `start` was never
invoked, and afterwards `keep_alive` returns `False` without touching the
network or the state. -/
theorem c8_terminate_idempotent_total (s : St) :
    (terminate s).1 = .ok () ∧
    terminate (terminate s).2 = (.ok (), (terminate s).2) ∧
    keepAlive (terminate s).2 = (.ok false, (terminate s).2) := by
  refine ⟨terminate_fst s, ?_, ?_⟩
  · rcases hg : (decide (s.sock = false) || !truthyS s.uriBase) with _ | _
    · rw [terminate_of_open s hg]
      exact terminate_of_guard _ (by simp)
    · rw [terminate_of_guard s hg]
      exact terminate_of_guard _ hg
  · rcases hg : (decide (s.sock = false) || !truthyS s.uriBase) with _ | _
    · rw [terminate_of_open s hg]
      exact keepAlive_of_guard _ (by simp)
    · rw [terminate_of_guard s hg]
      exact keepAlive_of_guard _ hg

/-! ## C10 -/

/-- C10: with an active session, `keep_alive` increments `_cseq` before the
request goes out: whatever the outcome (success, non-success raise, or
transport error), the counter has advanced by one, any request sent in the
call carries the new value, and a second call uses a strictly larger value
again, so no sequence number is reissued after a failed keep-alive. -/
theorem c10_keepAlive_consumes_cseq (s : St)
    (h1 : s.sock = true) (h2 : truthyS s.uriBase = true) :
    (keepAlive s).2.cseq = s.cseq + 1 ∧
    (∀ r ∈ (keepAlive s).2.trace, r ∈ s.trace ∨ r.cseq = s.cseq + 1) ∧
    (keepAlive (keepAlive s).2).2.cseq = s.cseq + 2 := by
  have hop : ∀ t : St, t.sock = true → truthyS t.uriBase = true →
      (keepAlive t).2.cseq = t.cseq + 1 ∧ (keepAlive t).2.sock = true ∧
      (keepAlive t).2.uriBase = t.uriBase ∧
      (∀ r ∈ (keepAlive t).2.trace, r ∈ t.trace ∨ r.cseq = t.cseq + 1) := by
    intro t ht1 ht2
    unfold keepAlive
    rw [if_neg (by rw [ht1, ht2]; simp)]
    obtain ⟨hc, hso, hu, htr⟩ := sendSimple_snd_fields "OPTIONS"
      (({ t with cseq := t.cseq + 1 } : St).uriBase.getD "") (t.cseq + 1)
      t.sessionId true { t with cseq := t.cseq + 1 }
    refine ⟨by rw [hc], by rw [hso]; exact ht1, by rw [hu], ?_⟩
    intro r hr
    rcases htr with htr | ⟨q, hq, htr⟩
    · rw [htr] at hr
      exact Or.inl hr
    · rw [htr] at hr
      rcases List.mem_append.mp hr with hr | hr
      · exact Or.inl hr
      · rw [List.mem_singleton] at hr
        subst hr
        exact Or.inr hq
  obtain ⟨hc1, hs1, hu1, ht1⟩ := hop s h1 h2
  obtain ⟨hc2, -, -, -⟩ := hop (keepAlive s).2 hs1 (by rw [hu1]; exact h2)
  exact ⟨hc1, ht1, by rw [hc2, hc1]⟩

theorem c10_keepAlive_consumes_cseq_witness :
    (keepAlive { startedSt with
        script := ["RTSP/1.0 454 Session Not Found\r\n\r\n"] }).2.cseq
      = ({ startedSt with
        script := ["RTSP/1.0 454 Session Not Found\r\n\r\n"] } : St).cseq + 1 :=
  (c10_keepAlive_consumes_cseq
    { startedSt with script := ["RTSP/1.0 454 Session Not Found\r\n\r\n"] }
    rfl rfl).1

/-! ## C3 -/

/-- A step-3 response whose SDP body has no `a=sendonly` section. -/
def resp2NoSendonly : String :=
  "RTSP/1.0 200 OK\r\nCSeq: 2\r\nContent-Base: rtsp://cam/live/\r\n\r\n" ++
  "v=0\r\nm=video 0 RTP/AVP 96\r\na=recvonly\r\na=control:track1\r\n"

/-- A fresh instance whose camera never offers a sendonly track. -/
def sNoSend : St :=
  initSt (some "admin") (some "1234") "cam" 554 "live" none true
    [chalResp, resp2NoSendonly]

/-- C3 counterexample: when the handshake fails at track discovery, the
teardown request reuses the constructor-preset counter (`_cseq = 5`), so the
wire carries CSeq values 1, 2, 6 — strictly increasing, but not increasing
by exactly 1 per request as the claim states. -/
theorem c3_gap_counterexample :
    traceCseqs (start sNoSend).2 = [1, 2, 6] ∧
    ¬ exactlyConsecutive (traceCseqs (start sNoSend).2) := by
  refine ⟨rfl, by decide⟩

/-- C3 amended: over every run of one machine instance — `start` on a fresh
instance followed by any interleaving of `keep_alive` and `terminate`, under
any camera behaviour — the CSeq values sent on the wire are strictly
increasing (hence never reused) and the first request carries CSeq 1; but a
teardown after a mid-handshake failure may skip values, so consecutive
requests do not always differ by exactly 1. -/
theorem c3_cseq_strictly_increasing (u p : Option String) (host : String)
    (port : Nat) (path : String) (cp : Option Nat) (cok : Bool)
    (script : List String) (ops : List Op) :
    (traceCseqs (runOps (start (initSt u p host port path cp cok script)).2 ops)).Pairwise
      (· < ·) ∧
    (∀ c : Nat,
      (traceCseqs (runOps (start (initSt u p host port path cp cok script)).2 ops)).head?
        = some c → c = 1) := by
  have h0 : TraceInv (start (initSt u p host port path cp cok script)).2 :=
    (start_main _ rfl rfl rfl).1
  have h := runOps_inv ops _ h0
  obtain ⟨hpw, -, hhead, -⟩ := h
  constructor
  · exact List.pairwise_map.mpr hpw
  · intro c hc
    rw [traceCseqs, List.head?_map] at hc
    obtain ⟨r, hr, hrc⟩ := Option.map_eq_some'.mp hc
    rw [← hrc]
    exact hhead r hr

/-! ## C9 -/

theorem rtspSend_open_cons (r : Req) (s : St) (resp : String)
    (rest : List String) (h1 : s.sock = true) (h2 : s.script = resp :: rest) :
    rtspSend r s =
      (.ok resp, { s with trace := s.trace ++ [r], script := rest }) := by
  unfold rtspSend
  rw [if_neg (by rw [h1]; simp), h2]

theorem rtspSend_open_nil (r : Req) (s : St) (h1 : s.sock = true)
    (h2 : s.script = []) :
    rtspSend r s = (.error .transportError, { s with trace := s.trace ++ [r] }) := by
  unfold rtspSend
  rw [if_neg (by rw [h1]; simp), h2]

/-- The instance state when the handshake stops at step 2 with no digest
challenge: connected, `_uri_base` set, exactly the unauthenticated DESCRIBE
sent, one script entry consumed. -/
def afterNoChallenge (s : St) (rest : List String) : St :=
  let s1 := { s with uriBase := some (uriBaseOf s), sock := true }
  { s1 with script := rest, trace := s1.trace ++ [⟨describe1Req (uriBaseOf s), 1, false⟩] }

/-- `_do_rtsp_handshake` when the step-1 response carries no digest
challenge: `RTSPAuthError` is raised after exactly one request, the
unauthenticated DESCRIBE. -/
theorem handshake_no_challenge (s : St) (hconn : s.connectOk = true)
    (resp1 : String) (rest : List String) (hscript : s.script = resp1 :: rest)
    (hfd : findDigestChallenge resp1 = none) :
    doRtspHandshake s =
      (.error (.authError "Digest challenge not received from camera"),
        afterNoChallenge s rest) := by
  unfold doRtspHandshake afterNoChallenge
  dsimp only
  rw [if_neg (by rw [hconn]; simp)]
  rw [rtspSend_open_cons ⟨describe1Req (uriBaseOf s), 1, false⟩
    { s with uriBase := some (uriBaseOf s), sock := true } resp1 rest rfl hscript]
  dsimp only
  rw [hfd]

theorem sendSimple_of_authFail (m u : String) (c : Nat) (sess : Option String)
    (ro : Bool) (s : St) (e : Err)
    (hba : buildAuthorization m u s = (.error e, s)) :
    sendSimple m u c sess ro s = (.error e, s) := by
  unfold sendSimple
  rw [hba]

theorem buildAuthorization_fails_no_realm (m u : String) (s : St)
    (h : s.realm = none) : ∃ e, buildAuthorization m u s = (.error e, s) := by
  unfold buildAuthorization
  rcases hu : s.username with _ | un
  · exact ⟨_, rfl⟩
  · rcases hp : s.password with _ | pw
    · exact ⟨_, rfl⟩
    · rw [h]
      exact ⟨_, rfl⟩

theorem terminate_trace_of_authFail (s : St) (e : Err)
    (hba : buildAuthorization "TEARDOWN" (s.uriBase.getD "") s
      = (.error e, s)) :
    (terminate s).2.trace = s.trace := by
  rcases hg : (decide (s.sock = false) || !truthyS s.uriBase) with _ | _
  · rw [terminate_of_open s hg]
    rw [sendSimple_of_authFail _ _ _ _ _ _ _ hba]
  · rw [terminate_of_guard s hg]

/-- C9: whenever the step-1 response carries no digest challenge — for any
credentials, target, and remaining camera behaviour — `start` fails with the
`RTSPAuthError`, and no request carrying an `Authorization` header was ever
sent: the wire saw exactly the one unauthenticated DESCRIBE. -/
theorem c9_no_challenge_auth_error (u p : Option String) (host : String)
    (port : Nat) (path : String) (cp : Option Nat) (resp1 : String)
    (rest : List String) (hfd : findDigestChallenge resp1 = none) :
    (start (initSt u p host port path cp true (resp1 :: rest))).1
      = .error (.authError "Digest challenge not received from camera") ∧
    ∀ q ∈ (start (initSt u p host port path cp true (resp1 :: rest))).2.trace,
      q.hasAuth = false := by
  have hhs := handshake_no_challenge
    (initSt u p host port path cp true (resp1 :: rest)) rfl resp1 rest rfl hfd
  unfold start
  rw [hhs]
  dsimp only
  obtain ⟨e2, hba⟩ := buildAuthorization_fails_no_realm "TEARDOWN"
    ((afterNoChallenge (initSt u p host port path cp true (resp1 :: rest))
        rest).uriBase.getD "")
    (afterNoChallenge (initSt u p host port path cp true (resp1 :: rest)) rest)
    rfl
  have htrace := terminate_trace_of_authFail _ e2 hba
  rcases hterm : terminate
      (afterNoChallenge (initSt u p host port path cp true (resp1 :: rest)) rest)
    with ⟨rt, sT⟩
  have hrt : rt = .ok () := by
    have := terminate_fst
      (afterNoChallenge (initSt u p host port path cp true (resp1 :: rest)) rest)
    rw [hterm] at this
    exact this
  have h2 : (terminate (afterNoChallenge
      (initSt u p host port path cp true (resp1 :: rest)) rest)).2 = sT := by
    rw [hterm]
  have hsT : sT.trace =
      [⟨describe1Req (uriBaseOf (initSt u p host port path cp true (resp1 :: rest))),
        1, false⟩] := by
    rw [← h2, htrace]
    rfl
  subst hrt
  refine ⟨rfl, ?_⟩
  intro q hq
  rw [hsT] at hq
  simp at hq
  rw [hq]

theorem c9_no_challenge_auth_error_witness :
    (start (initSt (some "admin") (some "1234") "cam" 554 "live" none true
        ["RTSP/1.0 200 OK\r\n\r\n"])).1
      = .error (.authError "Digest challenge not received from camera") :=
  (c9_no_challenge_auth_error (some "admin") (some "1234") "cam" 554 "live"
    none "RTSP/1.0 200 OK\r\n\r\n" [] (by decide)).1

/-! ## C5 -/

theorem buildAuthorization_ok_eq (m u : String) (s : St)
    (un pw realm nonce : String) (h1 : s.username = some un)
    (h2 : s.password = some pw) (h3 : s.realm = some realm)
    (h4 : s.nonce = some nonce) (h5 : realm ≠ "") (h6 : nonce ≠ "") :
    buildAuthorization m u s = (.ok (rfc2617Header un pw realm nonce m u), s) := by
  unfold buildAuthorization
  rw [h1, h2, h3, h4]
  dsimp only
  rw [if_neg (by simp [h5, h6])]
  rfl

theorem rtspSend_dest_cons {r : Req} {s sE : St} {res : Except Err String}
    (h : rtspSend r s = (res, sE)) (hsock : s.sock = true)
    {resp : String} {rest : List String} (hscr : s.script = resp :: rest) :
    res = .ok resp ∧ sE = { s with trace := s.trace ++ [r], script := rest } := by
  rw [rtspSend_open_cons r s resp rest hsock hscr] at h
  simp only [Prod.mk.injEq] at h
  exact ⟨h.1.symm, h.2.symm⟩

theorem buildAuthorization_dest_ok {m u : String} {s sB : St}
    {res : Except Err String} (h : buildAuthorization m u s = (res, sB))
    {un pw realm nonce : String} (h1 : s.username = some un)
    (h2 : s.password = some pw) (h3 : s.realm = some realm)
    (h4 : s.nonce = some nonce) (h5 : realm ≠ "") (h6 : nonce ≠ "") :
    res = .ok (rfc2617Header un pw realm nonce m u) ∧ sB = s := by
  rw [buildAuthorization_ok_eq m u s un pw realm nonce h1 h2 h3 h4 h5 h6] at h
  simp only [Prod.mk.injEq] at h
  exact ⟨h.1.symm, h.2.symm⟩

/-- The `Content-Base` header line prepended to the SDP body in the step-3
response (the code only ever inspects this header and the body). -/
def cbRespStr : String := "Content-Base: rtsp://cam/live/\r\n\r\n"

theorem findContentBase_cbResp (sdp : String) :
    findContentBase (cbRespStr ++ sdp) = some "rtsp://cam/live/" := by
  have hmain : tryContentBaseAt (cbRespStr.data ++ sdp.data)
      = some (String.data "rtsp://cam/live/") := by
    unfold tryContentBaseAt
    rw [dropLit_append (String.data "Content-Base:") cbRespStr.data sdp.data
      (String.data " rtsp://cam/live/\r\n\r\n") (by decide)]
    dsimp only
    rw [dropWhile_append_stop isPyWS (String.data " rtsp://cam/live/\r\n\r\n")
      sdp.data (by decide)]
    rw [show (String.data " rtsp://cam/live/\r\n\r\n").dropWhile isPyWS
      = String.data "rtsp://cam/live/\r\n\r\n" from by decide]
    unfold capWhile
    dsimp only
    rw [takeWhile_append_stop (fun c => !isPyWS c)
      (String.data "rtsp://cam/live/\r\n\r\n") sdp.data (by decide)]
    rw [show (String.data "rtsp://cam/live/\r\n\r\n").takeWhile (fun c => !isPyWS c)
      = String.data "rtsp://cam/live/" from by decide]
    rw [if_neg (by decide)]
  unfold findContentBase
  rw [String.data_append, searchA_head tryContentBaseAt _ _ hmain]
  rfl

theorem bodyOf_cbResp (sdp : String) : bodyOf (cbRespStr ++ sdp) = sdp := by
  unfold bodyOf
  rw [String.data_append]
  rw [show cbRespStr.data = (String.data "Content-Base: rtsp://cam/live/")
    ++ (String.data "\r\n\r\n") from by decide]
  rw [splitFirst_append_concat (String.data "\r\n\r\n")
    (String.data "Content-Base: rtsp://cam/live/") sdp.data (by decide)]

theorem findTalkControl_none (l : List (List Char))
    (h : ∀ sec ∈ l, containsSub (String.data "a=sendonly") sec = false) :
    findTalkControl l = none := by
  induction l with
  | nil => rfl
  | cons sec rest ih =>
    rw [findTalkControl]
    rw [h sec (List.mem_cons_self sec rest)]
    exact ih fun x hx => h x (List.mem_cons_of_mem sec hx)

/-- `_do_rtsp_handshake` against a camera that answers the challenge and a
content-base but offers no `a=sendonly` section: the handshake raises
`RTSPHandshakeError("No talk-back (a=sendonly) track found")`. -/
theorem handshake_no_sendonly_fst (s : St) (hconn : s.connectOk = true)
    (sdp : String) (hscript : s.script = [chalResp, cbRespStr ++ sdp])
    (hu : s.username = some "admin") (hp : s.password = some "1234")
    (hnos : ∀ sec ∈ splitSections sdp,
      containsSub (String.data "a=sendonly") sec = false) :
    (doRtspHandshake s).1
      = .error (.handshakeError "No talk-back (a=sendonly) track found") := by
  unfold doRtspHandshake
  dsimp only
  split
  · rename_i hcf
    rw [hconn] at hcf
    simp at hcf
  · split
    · rename_i e sE heq
      obtain ⟨hres, -⟩ := rtspSend_dest_cons heq rfl hscript
      simp at hres
    · rename_i resp1 sA heq
      obtain ⟨hres, hstate⟩ := rtspSend_dest_cons heq rfl hscript
      simp only [Except.ok.injEq] at hres
      subst hres
      subst hstate
      rw [show findDigestChallenge chalResp = some ("X", "Y") from by decide]
      dsimp only
      split
      · rename_i e2 sB2 heq2
        obtain ⟨hres2, -⟩ := buildAuthorization_dest_ok heq2 hu hp rfl rfl
          (by decide) (by decide)
        simp at hres2
      · rename_i auth sB2 heq2
        obtain ⟨hres2, hstate2⟩ := buildAuthorization_dest_ok heq2 hu hp rfl rfl
          (by decide) (by decide)
        simp only [Except.ok.injEq] at hres2
        subst hres2
        subst hstate2
        split
        · rename_i e3 sC heq3
          obtain ⟨hres3, -⟩ := rtspSend_dest_cons heq3 rfl rfl
          simp at hres3
        · rename_i resp2 sC heq3
          obtain ⟨hres3, hstate3⟩ := rtspSend_dest_cons heq3 rfl rfl
          simp only [Except.ok.injEq] at hres3
          subst hres3
          subst hstate3
          rw [findContentBase_cbResp sdp]
          dsimp only
          rw [bodyOf_cbResp sdp, findTalkControl_none _ hnos]

/-- C5: for every SDP body with no section marked `a=sendonly` (the rest of
the conversation reaching step 5), `start` fails with the `RTSPHandshakeError`
for the missing talk-back track and the channel ends up closed; and on every
fatal failure of `start`, whatever the camera did, the channel is closed
before the error propagates. -/
theorem c5_no_sendonly_closes :
    (∀ sdp : String,
      (∀ sec ∈ splitSections sdp,
        containsSub (String.data "a=sendonly") sec = false) →
      (start (initSt (some "admin") (some "1234") "cam" 554 "live" none true
          [chalResp, cbRespStr ++ sdp])).1
        = .error (.handshakeError "No talk-back (a=sendonly) track found") ∧
      (start (initSt (some "admin") (some "1234") "cam" 554 "live" none true
          [chalResp, cbRespStr ++ sdp])).2.sock = false) ∧
    (∀ (u p : Option String) (host : String) (port : Nat) (path : String)
        (cp : Option Nat) (cok : Bool) (script : List String) (e : Err),
      (start (initSt u p host port path cp cok script)).1 = .error e →
      (start (initSt u p host port path cp cok script)).2.sock = false) := by
  constructor
  · intro sdp hnos
    have hfst := handshake_no_sendonly_fst
      (initSt (some "admin") (some "1234") "cam" 554 "live" none true
        [chalResp, cbRespStr ++ sdp]) rfl sdp rfl rfl rfl hnos
    have hstart : (start (initSt (some "admin") (some "1234") "cam" 554 "live"
        none true [chalResp, cbRespStr ++ sdp])).1
        = .error (.handshakeError "No talk-back (a=sendonly) track found") := by
      unfold start
      rcases hh : doRtspHandshake (initSt (some "admin") (some "1234") "cam" 554
        "live" none true [chalResp, cbRespStr ++ sdp]) with ⟨res, sH⟩
      rw [hh] at hfst
      have hres : res = .error (.handshakeError "No talk-back (a=sendonly) track found") :=
        hfst
      subst hres
      dsimp only
      rcases hterm : terminate sH with ⟨rt, sT⟩
      have hrt : rt = .ok () := by
        have := terminate_fst sH
        rw [hterm] at this
        exact this
      subst hrt
      rfl
    exact ⟨hstart, (start_main _ rfl rfl rfl).2 _ hstart⟩
  · intro u p host port path cp cok script e h
    exact (start_main _ rfl rfl rfl).2 e h

/-- An SDP body with a media section but no `a=sendonly` anywhere. -/
def sdpRecvOnly : String := "v=0\r\nm=video 0 RTP/AVP 96\r\na=recvonly\r\na=control:track1\r\n"

theorem c5_no_sendonly_closes_witness :
    (start (initSt (some "admin") (some "1234") "cam" 554 "live" none true
        [chalResp, cbRespStr ++ sdpRecvOnly])).1
      = .error (.handshakeError "No talk-back (a=sendonly) track found") ∧
    (start (initSt (some "admin") (some "1234") "cam" 554 "live" none true
        [chalResp, cbRespStr ++ sdpRecvOnly])).2.sock = false :=
  c5_no_sendonly_closes.1 sdpRecvOnly (by decide)

theorem c3_cseq_strictly_increasing_witness :
    (traceCseqs (runOps (start (initSt (some "admin") (some "1234") "cam" 554
      "live" none true [chalResp, resp2TwoTrack, setupRespDemo, playRespDemo])).2
      [])).Pairwise (· < ·) ∧ (1 : Nat) = 1 :=
  ⟨(c3_cseq_strictly_increasing (some "admin") (some "1234") "cam" 554 "live"
      none true [chalResp, resp2TwoTrack, setupRespDemo, playRespDemo] []).1,
    (c3_cseq_strictly_increasing (some "admin") (some "1234") "cam" 554 "live"
      none true [chalResp, resp2TwoTrack, setupRespDemo, playRespDemo] []).2 1
      (by rfl)⟩
